import Mathlib

/-!
Verification of the match normalization and round/status-inference layer of the
odds-checker repository.

The embedding models instants as `Int` milliseconds since the Unix epoch
(the code computes `now.getTime() - kickoff.getTime()` in milliseconds and
divides by 60000 to compare against the minute constants 0, 105 and 120; for
integral millisecond inputs the floating-point division never rounds across
those boundaries, so comparing milliseconds against `105*60000` / `120*60000`
is an exact model of the minute comparisons).

The ambient wall-clock reads (`new Date()`, `Date.now()`) inside the source
functions are modelled as an explicit `now : Int` parameter, and the
`Math.random()` draws of the Pinnacle normalizer as explicit rational
parameters; this makes the impure reads visible in the embedding.

JavaScript `Date` string parsing (a host builtin, not repository code) is
modelled by `jsDateParse`, a strict parser for the full UTC ISO format
`YYYY-MM-DDTHH:MM:SSZ` that the repository's upstream feeds use; every other
string is modelled as an invalid date (`none`), which is what `new Date`
produces for malformed input.  `Date.prototype.toISOString` throws on an
invalid date, so a normalizer applied to an unparseable timestamp is modelled
as `Except.error`.
-/

/-- Match status union of the source (`'SCHEDULED' | 'LIVE' | 'FINISHED' | 'CANCELLED'`). -/
inductive Status where
  | scheduled
  | live
  | finished
  | cancelled
deriving DecidableEq, Repr

/-- `MATCH_DURATION_MS = 105 * MINUTES_IN_MS` from the unified match utils. -/
def MATCH_DURATION_MS : Int := 105 * 60000

/-- `GRACE_PERIOD_MS = 120 * MINUTES_IN_MS` from the unified match utils; the
match-normalizer module compares the elapsed minutes against the literal `120`,
which is the same bound. -/
def GRACE_PERIOD_MS : Int := 120 * 60000

/-- Decidable equality for `Except`, needed to evaluate concrete runs by `decide`. -/
instance {ε α : Type} [DecidableEq ε] [DecidableEq α] : DecidableEq (Except ε α) := fun x y =>
  match x, y with
  | .error a, .error b =>
    if h : a = b then isTrue (by rw [h]) else isFalse (by intro hh; cases hh; exact h rfl)
  | .ok a, .ok b =>
    if h : a = b then isTrue (by rw [h]) else isFalse (by intro hh; cases hh; exact h rfl)
  | .error _, .ok _ => isFalse (by intro hh; cases hh)
  | .ok _, .error _ => isFalse (by intro hh; cases hh)

/-- JavaScript truthiness of `x || d` on an optional string: `undefined`, `null`
and the empty string fall through to the default. -/
def jsOrStr (o : Option String) (d : String) : String :=
  match o with
  | some s => if s = "" then d else s
  | none => d

/-- JavaScript `a || b` where both sides are optional string fields: a present
non-empty `a` wins, otherwise the (possibly absent) `b` is the value. -/
def jsOrField (a b : Option String) : Option String :=
  match a with
  | some s => if s = "" then b else some s
  | none => b

/-- JavaScript `score || null`: a score of `0` is falsy and becomes `null`. -/
def jsScore (o : Option Int) : Option Int :=
  match o with
  | some n => if n = 0 then none else some n
  | none => none

/-- JavaScript `odd || d` on an optional number: `undefined` and `0` fall
through to the default. -/
def jsOrQ (o : Option Rat) (d : Rat) : Rat :=
  match o with
  | some q => if q = 0 then d else q
  | none => d

/-- Gregorian leap-year test (used to model `Date` validation of day-of-month). -/
def isLeapYear (y : Nat) : Bool := (y % 4 == 0 && y % 100 != 0) || (y % 400 == 0)

/-- Days in a Gregorian month. -/
def daysInMonth (y m : Nat) : Nat :=
  if m = 2 then (if isLeapYear y then 29 else 28)
  else if m = 4 ∨ m = 6 ∨ m = 9 ∨ m = 11 then 30
  else 31

/-- Days from 0001-01-01 to the start of year `y` (proleptic Gregorian). -/
def daysBeforeYear (y : Nat) : Nat :=
  365 * (y - 1) + (y - 1) / 4 - (y - 1) / 100 + (y - 1) / 400

/-- Days from the start of year `y` to the start of its month `m`. -/
def daysBeforeMonth (y m : Nat) : Nat :=
  ((List.range (m - 1)).map (fun i => daysInMonth y (i + 1))).sum

/-- Days between 1970-01-01 and the civil date `y-m-d` (may be negative). -/
def epochDays (y m d : Nat) : Int :=
  ((daysBeforeYear y + daysBeforeMonth y m + (d - 1) : Nat) : Int) - 719162

/-- Milliseconds since the Unix epoch of the UTC instant `y-m-d hh:mi:ss`. -/
def epochMs (y m d hh mi ss : Nat) : Int :=
  epochDays y m d * 86400000 + (hh : Int) * 3600000 + (mi : Int) * 60000 + (ss : Int) * 1000

/-- Value of a decimal digit character. -/
def digitVal (c : Char) : Option Nat :=
  if c.isDigit then some (c.toNat - 48) else none

/-- Two decimal digits. -/
def d2 (a b : Char) : Option Nat :=
  match digitVal a, digitVal b with
  | some x, some y => some (10 * x + y)
  | _, _ => none

/-- Four decimal digits. -/
def d4 (a b c d : Char) : Option Nat :=
  match d2 a b, d2 c d with
  | some x, some y => some (100 * x + y)
  | _, _ => none

/-- Model of the JavaScript `Date` string parser restricted to the full UTC ISO
format `YYYY-MM-DDTHH:MM:SSZ` used by the repository's feeds; all other inputs
are modelled as an invalid date (`none`). -/
def jsDateParse (s : String) : Option Int :=
  match s.data with
  | [y1, y2, y3, y4, '-', m1, m2, '-', dd1, dd2, 'T', h1, h2, ':', n1, n2, ':', s1, s2, 'Z'] =>
    match d4 y1 y2 y3 y4, d2 m1 m2, d2 dd1 dd2, d2 h1 h2, d2 n1 n2, d2 s1 s2 with
    | some y, some mo, some da, some hh, some mi, some ss =>
      if 1 ≤ mo ∧ mo ≤ 12 ∧ 1 ≤ da ∧ da ≤ daysInMonth y mo ∧ hh ≤ 23 ∧ mi ≤ 59 ∧ ss ≤ 59 then
        some (epochMs y mo da hh mi ss)
      else none
    | _, _, _, _, _, _ => none
  | _ => none

namespace MatchNormalizer

/-- League value object of the centralized normalizer (`LEAGUE_CONFIGS` entries). -/
structure League where
  id : String
  name : String
  country : String
  logoUrl : Option String := none
deriving DecidableEq, Repr

/-- `LEAGUE_CONFIGS.AUSTRIAN_BUNDESLIGA`. -/
def AUSTRIAN_BUNDESLIGA : League :=
  { id := "OEBL1", name := "Österreichische Bundesliga", country := "Austria",
    logoUrl := some "/logos/austrian-bundesliga.png" }

/-- `LEAGUE_CONFIGS.AUSTRIAN_2LIGA`. -/
def AUSTRIAN_2LIGA : League :=
  { id := "OEBL2", name := "Österreichische 2. Liga", country := "Austria",
    logoUrl := some "/logos/austrian-2liga.png" }

/-- `LEAGUE_CONFIGS.GERMAN_BUNDESLIGA`. -/
def GERMAN_BUNDESLIGA : League :=
  { id := "DE1", name := "Deutsche Bundesliga", country := "Germany",
    logoUrl := some "/logos/bundesliga.png" }

/-- `LEAGUE_CONFIGS.GERMAN_2BUNDESLIGA`. -/
def GERMAN_2BUNDESLIGA : League :=
  { id := "DE2", name := "Deutsche 2. Bundesliga", country := "Germany",
    logoUrl := some "/logos/2bundesliga.png" }

/-- `LEAGUE_CONFIGS.PREMIER_LEAGUE`. -/
def PREMIER_LEAGUE : League :=
  { id := "EPL", name := "Premier League", country := "England",
    logoUrl := some "/logos/premier-league.png" }

/-- One leg of the `bestOdds` structure (`{ odd, bookmaker }`). -/
structure OddEntry where
  odd : Rat
  bookmaker : String
deriving DecidableEq, Repr

/-- The `bestOdds` structure of a normalized match. -/
structure BestOdds where
  home : OddEntry
  draw : OddEntry
  away : OddEntry
deriving DecidableEq, Repr

/-- Team block of a `NormalizedMatch`. -/
structure NTeam where
  id : String
  name : String
  shortName : String
  logoUrl : Option String
  score : Option Int
deriving DecidableEq, Repr

/-- The canonical `NormalizedMatch` record of the centralized normalizer.
`kickoffTime` is serialized as an ISO UTC string in the source; since
`toISOString` is injective on valid instants and every consumer immediately
re-parses it, it is modelled by the instant itself. -/
structure NormalizedMatch where
  id : String
  league : League
  homeTeam : NTeam
  awayTeam : NTeam
  kickoffTime : Int
  status : Status
  round : Option String
  season : Option String
  bestOdds : Option BestOdds
  pageUrl : Option String
  liveTime : Option String
deriving DecidableEq, Repr

/-- Raw upstream team block (Shape A `homeTeam`/`awayTeam`, Shape B `home`/`away`). -/
structure RawTeam where
  id : Option String
  name : Option String
  score : Option Int
deriving DecidableEq, Repr

/-- Shape-A status flags (`{finished, started, cancelled}`). -/
structure StatusFlagsA where
  finished : Bool
  started : Bool
  cancelled : Bool
deriving DecidableEq, Repr

/-- Shape-A raw record (teams under `homeTeam`/`awayTeam`, kickoff under `utcTime`). -/
structure RawMatchA where
  id : String
  homeTeam : Option RawTeam
  awayTeam : Option RawTeam
  utcTime : String
  status : Option StatusFlagsA
  round : Option String
  season : Option String
  bestOdds : Option BestOdds
deriving DecidableEq, Repr

/-- Shape-B nested status block (kickoff under `status.utcTime`, flags include `ongoing`). -/
structure RawStatusB where
  utcTime : String
  finished : Bool
  started : Bool
  cancelled : Bool
  ongoing : Bool
  liveTime : Option String
deriving DecidableEq, Repr

/-- Shape-B raw record (teams under `home`/`away`, kickoff under `status.utcTime`). -/
structure RawMatchB where
  id : String
  home : Option RawTeam
  away : Option RawTeam
  status : Option RawStatusB
  round : Option String
  season : Option String
  pageUrl : Option String
deriving DecidableEq, Repr

/-- Pinnacle (Shape C) raw record: team names are plain strings, kickoff under
`starts`, money-line odds under `periods.num_0.money_line`. -/
structure RawPinnacle where
  event_id : Nat
  home : Option String
  away : Option String
  starts : String
  mlHome : Option Rat
  mlDraw : Option Rat
  mlAway : Option Rat
deriving DecidableEq, Repr

/-- ASCII uppercasing of one character (the team names the repository feeds
through `toUpperCase` are ASCII). -/
def charToUpper (c : Char) : Char :=
  if 'a' ≤ c ∧ c ≤ 'z' then Char.ofNat (c.toNat - 32) else c

/-- ASCII lowercasing of one character. -/
def charToLower (c : Char) : Char :=
  if 'A' ≤ c ∧ c ≤ 'Z' then Char.ofNat (c.toNat + 32) else c

/-- JavaScript `String.prototype.split(sep)` on a single-character separator
(empty segments between consecutive separators are kept), over the character
list; `acc` is the current segment, reversed. -/
def splitOnCharAux (sep : Char) : List Char → List Char → List (List Char)
  | acc, [] => [acc.reverse]
  | acc, c :: cs =>
    if c = sep then acc.reverse :: splitOnCharAux sep [] cs
    else splitOnCharAux sep (c :: acc) cs

/-- First character of a word (JavaScript `word[0]`; for an empty word the
`undefined` renders as the empty string under `Array.prototype.join`). -/
def firstChar : List Char → List Char
  | [] => []
  | c :: _ => [c]

/-- `generateShortName`: initials of the space-separated words, truncated to
three characters, uppercased. -/
def generateShortName (name : String) : String :=
  String.mk ((((splitOnCharAux ' ' [] name.data).map firstChar).flatten.take 3).map charToUpper)

/-- Replace every run of whitespace by a single hyphen (JavaScript
`replace(/\s+/g, '-')`); the flag records whether the previous character was
part of a whitespace run. -/
def collapseWsAux : Bool → List Char → List Char
  | _, [] => []
  | inWs, c :: cs =>
    if c.isWhitespace then
      if inWs then collapseWsAux true cs else '-' :: collapseWsAux true cs
    else c :: collapseWsAux false cs

/-- `generateTeamId`: hyphenate whitespace runs, lowercase. -/
def generateTeamId (name : String) : String :=
  String.mk ((collapseWsAux false name.data).map charToLower)

/-- `determineStatus` of the centralized normalizer.  The source reads
`new Date()` internally; that ambient read is the explicit `now` parameter. -/
def determineStatus (kickoffTime : Int) (finished started cancelled ongoing : Bool)
    (now : Int) : Status :=
  if cancelled then .cancelled
  else if finished then .finished
  else if started || decide (0 ≤ now - kickoffTime ∧ now - kickoffTime < GRACE_PERIOD_MS) then
    .live
  else if ongoing then .live
  else .scheduled

/-- JavaScript `String.prototype.includes` with a single-character needle
(how `parseUTCTime` tests for `'T'`, `'Z'` and `'+'`). -/
def strIncludesChar (s : String) (c : Char) : Bool :=
  s.data.contains c

/-- String branch of `parseUTCTime`: append a `Z` suffix when the string
contains a `T` but neither `Z` nor `+`. -/
def ensureUTCSuffix (timeString : String) : String :=
  if strIncludesChar timeString 'T' && !strIncludesChar timeString 'Z' &&
      !strIncludesChar timeString '+' then
    timeString ++ "Z"
  else timeString

/-- `parseUTCTime`: suffix handling followed by the `Date` builtin. -/
def parseUTCTime (timeString : String) : Option Int :=
  jsDateParse (ensureUTCSuffix timeString)

/-- Normalization of one raw team block, shared verbatim between Shape A and
Shape B in the source (`id || generateTeamId(name)`, `name || ''`, derived
short name, `logoUrl: null`, `score || null`). -/
def normTeam (t : Option RawTeam) : NTeam :=
  let name := (t.bind RawTeam.name).getD ""
  { id := jsOrStr (t.bind RawTeam.id) (generateTeamId name)
    name := name
    shortName := generateShortName name
    logoUrl := none
    score := jsScore (t.bind RawTeam.score) }

/-- Errors a normalizer can throw: `invalidTime` models the `RangeError` of
`toISOString` on an invalid date, `typeError` the `TypeError` of reading a
property of `undefined`. -/
inductive NormError where
  | invalidTime
  | typeError
deriving DecidableEq, Repr

/-- `normalizeAustrianWeekendMatch` (Shape A). -/
def normalizeAustrianWeekendMatch (m : RawMatchA) (leagueConfig : League)
    (now : Int) : Except NormError NormalizedMatch :=
  match parseUTCTime m.utcTime with
  | none => .error .invalidTime
  | some kickoffUTC =>
    .ok
      { id := m.id
        league := leagueConfig
        homeTeam := normTeam m.homeTeam
        awayTeam := normTeam m.awayTeam
        kickoffTime := kickoffUTC
        status := determineStatus kickoffUTC
          ((m.status.map StatusFlagsA.finished).getD false)
          ((m.status.map StatusFlagsA.started).getD false)
          ((m.status.map StatusFlagsA.cancelled).getD false)
          false now
        round := m.round
        season := m.season
        bestOdds := m.bestOdds
        pageUrl := none
        liveTime := none }

/-- `normalizeGermanBundesligaMatch` (Shape B).  Reading `match.status?.utcTime`
with `status` absent passes `undefined` to `parseUTCTime`, whose
`timeString.includes` call throws; hence the `typeError` case. -/
def normalizeGermanBundesligaMatch (m : RawMatchB) (leagueConfig : League)
    (round : Option String) (now : Int) : Except NormError NormalizedMatch :=
  match m.status with
  | none => .error .typeError
  | some st =>
    match parseUTCTime st.utcTime with
    | none => .error .invalidTime
    | some kickoffUTC =>
      .ok
        { id := m.id
          league := leagueConfig
          homeTeam := normTeam m.home
          awayTeam := normTeam m.away
          kickoffTime := kickoffUTC
          status := determineStatus kickoffUTC st.finished st.started st.cancelled
            st.ongoing now
          round := jsOrField round m.round
          season := some (jsOrStr m.season "2024/25")
          bestOdds := none
          pageUrl := m.pageUrl
          liveTime := st.liveTime }

/-- Identifier fragment of the Pinnacle id template: `${match.home?.replace(...)
.toLowerCase()}` renders the string `"undefined"` when the field is absent. -/
def pinnacleIdPart : Option String → String
  | some s => generateTeamId s
  | none => "undefined"

/-- `normalizePinnacleMatch` (Shape C).  The three `Math.random()` draws for the
fallback odds are the explicit `rng` triple. -/
def normalizePinnacleMatch (m : RawPinnacle) (leagueConfig : League)
    (round : Option String) (now : Int) (rng : Rat × Rat × Rat) :
    Except NormError NormalizedMatch :=
  match parseUTCTime m.starts with
  | none => .error .invalidTime
  | some kickoffUTC =>
    let e := now - kickoffUTC
    let status : Status :=
      if 0 ≤ e ∧ e < GRACE_PERIOD_MS then .live
      else if GRACE_PERIOD_MS ≤ e then .finished
      else .scheduled
    .ok
      { id := pinnacleIdPart m.home ++ "-vs-" ++ pinnacleIdPart m.away ++ "-" ++
          toString m.event_id
        league := leagueConfig
        homeTeam :=
          { id := generateTeamId (m.home.getD "")
            name := m.home.getD ""
            shortName := generateShortName (m.home.getD "")
            logoUrl := none
            score := none }
        awayTeam :=
          { id := generateTeamId (m.away.getD "")
            name := m.away.getD ""
            shortName := generateShortName (m.away.getD "")
            logoUrl := none
            score := none }
        kickoffTime := kickoffUTC
        status := status
        round := some (jsOrStr round "12. Spieltag")
        season := some "2024/25"
        bestOdds := some
          { home := { odd := jsOrQ m.mlHome (37/20 + rng.1 * (3/2)), bookmaker := "bet365" }
            draw := { odd := jsOrQ m.mlDraw (31/10 + rng.2.1 * (4/5)), bookmaker := "bwin" }
            away := { odd := jsOrQ m.mlAway (11/4 + rng.2.2 * (6/5)), bookmaker := "tipico" } }
        pageUrl := none
        liveTime := none }

/-- `normalizeFormattedMatch` (Shape D, pass-through). -/
def normalizeFormattedMatch (m : NormalizedMatch) : NormalizedMatch :=
  { id := m.id, league := m.league, homeTeam := m.homeTeam, awayTeam := m.awayTeam,
    kickoffTime := m.kickoffTime, status := m.status, round := m.round,
    season := m.season, bestOdds := m.bestOdds, pageUrl := m.pageUrl,
    liveTime := m.liveTime }

/-- `filterRelevantMatches` of the centralized normalizer: keep a match iff
fewer than 120 minutes have elapsed since kickoff, regardless of status. -/
def filterRelevantMatches (now : Int) (ms : List NormalizedMatch) :
    List NormalizedMatch :=
  ms.filter (fun m => decide (now - m.kickoffTime < GRACE_PERIOD_MS))

/-- Sort rank of the comparator (`LIVE` first). -/
def statusRank : Status → Nat
  | .live => 0
  | _ => 1

/-- Total preorder realised by the `sortMatches` comparator: `LIVE` first, then
kickoff time ascending. -/
def matchLe (a b : NormalizedMatch) : Prop :=
  statusRank a.status < statusRank b.status ∨
    (statusRank a.status = statusRank b.status ∧ a.kickoffTime ≤ b.kickoffTime)

instance : DecidableRel matchLe := fun a b => by
  unfold matchLe; infer_instance

/-- `sortMatches`: stable sort by the comparator (JavaScript `Array.prototype.sort`
is stable; a stable sort under a total preorder is insertion sort). -/
def sortMatches (ms : List NormalizedMatch) : List NormalizedMatch :=
  List.insertionSort matchLe ms

/-- Union of the raw record shapes the dispatcher can receive. -/
inductive RawInput where
  | shapeA (m : RawMatchA)
  | shapeB (m : RawMatchB)
  | pinnacle (m : RawPinnacle)
  | formatted (m : NormalizedMatch)
deriving DecidableEq, Repr

/-- Coerce a dispatcher input to Shape A; a wrong-shape record is modelled as a
type error (in JavaScript a wrong-shape record would be read through missing
properties; no claim exercises that path). -/
def asShapeA : RawInput → Except NormError RawMatchA
  | .shapeA m => .ok m
  | _ => .error .typeError

/-- Coerce a dispatcher input to Shape B. -/
def asShapeB : RawInput → Except NormError RawMatchB
  | .shapeB m => .ok m
  | _ => .error .typeError

/-- Coerce a dispatcher input to the Pinnacle shape. -/
def asPinnacle : RawInput → Except NormError RawPinnacle
  | .pinnacle m => .ok m
  | _ => .error .typeError

/-- Coerce a dispatcher input to an already-formatted record. -/
def asFormatted : RawInput → Except NormError NormalizedMatch
  | .formatted m => .ok m
  | _ => .error .typeError

/-- JavaScript `Array.prototype.map` with a callback that can throw: the first
exception aborts the whole traversal. -/
def mapExcept {ε α β : Type} (f : α → Except ε β) : List α → Except ε (List β)
  | [] => .ok []
  | a :: as =>
    match f a with
    | .error e => .error e
    | .ok b =>
      match mapExcept f as with
      | .error e => .error e
      | .ok bs => .ok (b :: bs)

/-- Index-passing variant of `mapExcept` (used to thread the per-record
`Math.random()` draws of the Pinnacle branch). -/
def mapExceptFrom {ε α β : Type} (f : Nat → α → Except ε β) : Nat → List α → Except ε (List β)
  | _, [] => .ok []
  | i, a :: as =>
    match f i a with
    | .error e => .error e
    | .ok b =>
      match mapExceptFrom f (i + 1) as with
      | .error e => .error e
      | .ok bs => .ok (b :: bs)

/-- `normalizeMatches`, the dispatcher: selects a per-shape normalizer by the
`source` tag, falls back to the formatted pass-through (after a console
warning) for unknown tags, then filters old matches and sorts.  `rngs i` is the
triple of `Math.random()` draws consumed by the `i`-th record of the Pinnacle
branch. -/
def normalizeMatches (ms : List RawInput) (source : String)
    (leagueConfig : Option League) (round : Option String) (now : Int)
    (rngs : Nat → Rat × Rat × Rat) : Except NormError (List NormalizedMatch) :=
  (if source = "austrian-weekend" then
      mapExcept (fun r => asShapeA r >>= fun m =>
        normalizeAustrianWeekendMatch m (leagueConfig.getD AUSTRIAN_BUNDESLIGA) now) ms
    else if source = "german-bundesliga" then
      mapExcept (fun r => asShapeB r >>= fun m =>
        normalizeGermanBundesligaMatch m (leagueConfig.getD GERMAN_BUNDESLIGA) round now) ms
    else if source = "german-2bundesliga" then
      mapExcept (fun r => asShapeB r >>= fun m =>
        normalizeGermanBundesligaMatch m (leagueConfig.getD GERMAN_2BUNDESLIGA) round now) ms
    else if source = "premier-league" then
      mapExcept (fun r => asShapeB r >>= fun m =>
        normalizeGermanBundesligaMatch m (leagueConfig.getD PREMIER_LEAGUE) round now) ms
    else if source = "pinnacle" then
      mapExceptFrom (fun i r => asPinnacle r >>= fun m =>
        normalizePinnacleMatch m (leagueConfig.getD AUSTRIAN_2LIGA) round now (rngs i)) 0 ms
    else if source = "formatted" then
      mapExcept (fun r => asFormatted r >>= fun m => .ok (normalizeFormattedMatch m)) ms
    else
      mapExcept (fun r => asFormatted r >>= fun m => .ok (normalizeFormattedMatch m)) ms).map
    (fun l => sortMatches (filterRelevantMatches now l))

/-- Erase the source-external `bestOdds` field (used to compare normalizer
outputs "except possibly `bestOdds`"). -/
def eraseOdds (n : NormalizedMatch) : NormalizedMatch :=
  { n with bestOdds := none }

end MatchNormalizer

namespace LeagueUtils

/-- Cached raw match of the unified utils (`cached.fixture.date` is the kickoff
string; it is modelled by the parsed instant, `cached.fixture.status.short` by
the optional short code). -/
structure CachedMatch where
  fixture_id : Nat
  fixture_date : Int
  fixture_status_short : Option String
  home_name : String
  away_name : String
deriving DecidableEq, Repr

/-- League configuration consumed by the unified utils (`matchesPerRound`,
`seasonStartDate`; the latter is computed but unused by `calculateCurrentRound`). -/
structure LeagueConfig where
  matchesPerRound : Nat
  seasonStartDate : Int
deriving DecidableEq, Repr

/-- Standardized match of the unified utils (`convertCachedMatch` output). -/
structure Match where
  id : Nat
  homeTeam : String
  awayTeam : String
  kickoffTime : Int
  status : Status
  round : Nat
  leagueId : String
  leagueName : String
deriving DecidableEq, Repr

/-- Time-only fallback of `calculateMatchStatus`: `LIVE` before
`MATCH_DURATION_MS`, `FINISHED` from there on (the source's two `FINISHED`
branches collapse). -/
def timeBasedStatus (t : Int) : Status :=
  if t < MATCH_DURATION_MS then .live else .finished

/-- `calculateMatchStatus` of the unified utils; `Date.now()` is the explicit
`now` parameter and the kickoff string is modelled by its parsed instant. -/
def calculateMatchStatus (kickoffTime : Int) (cacheStatus : Option String)
    (now : Int) : Status :=
  let timeSinceKickoff := now - kickoffTime
  if timeSinceKickoff < 0 then .scheduled
  else
    match cacheStatus with
    | some cs =>
      if cs = "" then timeBasedStatus timeSinceKickoff
      else
        let u := cs.toUpper
        if u = "FT" ∨ u = "AET" ∨ u = "PEN" then .finished
        else if u = "LIVE" ∨ u = "1H" ∨ u = "HT" ∨ u = "2H" then .live
        else timeBasedStatus timeSinceKickoff
    | none => timeBasedStatus timeSinceKickoff

/-- Partition into consecutive groups of `k` (the `for (i; i += k) slice(i, i+k)`
loop of `calculateCurrentRound`; with `k = 0` the source loop diverges, so the
model is only meaningful for `0 < k`, which every theorem assumes). -/
def chunksListAux {α : Type} (k : Nat) : Nat → List α → List (List α)
  | _, [] => []
  | 0, _ :: _ => []
  | fuel + 1, y :: ys => (y :: ys).take k :: chunksListAux k fuel ((y :: ys).drop k)

/-- Partition into consecutive groups of `k`, entry point: the list's length is
enough fuel because each step consumes at least one element when `0 < k`. -/
def chunksList {α : Type} (k : Nat) (xs : List α) : List (List α) :=
  if k = 0 then [] else chunksListAux k xs.length xs

/-- Kickoff of the positionally last match of a group
(`roundMatches[roundMatches.length - 1]`). -/
def lastKickoff (g : List CachedMatch) : Int :=
  match g.getLast? with
  | some m => m.fixture_date
  | none => 0

/-- Loop body of `calculateCurrentRound`: scan the groups in order, skip empty
groups, return the 1-indexed position of the first group whose last kickoff is
within the grace period, or `total` (the number of groups) when none is. -/
def findCurrentRound (now : Int) (total : Nat) : List (List CachedMatch) → Nat → Nat
  | [], _ => total
  | g :: gs, idx =>
    if g.isEmpty then findCurrentRound now total gs (idx + 1)
    else if now - lastKickoff g < GRACE_PERIOD_MS then idx + 1
    else findCurrentRound now total gs (idx + 1)

/-- `calculateCurrentRound` of the unified utils (`Date.now()` is the explicit
`now`; the computed-but-unused `seasonStart` is omitted). -/
def calculateCurrentRound (ms : List CachedMatch) (config : LeagueConfig)
    (now : Int) : Nat :=
  findCurrentRound now (chunksList config.matchesPerRound ms).length
    (chunksList config.matchesPerRound ms) 0

/-- `filterCurrentRoundMatches`: the slice
`[(currentRound-1)*matchesPerRound, currentRound*matchesPerRound)`. -/
def filterCurrentRoundMatches (ms : List CachedMatch) (currentRound : Nat)
    (config : LeagueConfig) : List CachedMatch :=
  (ms.drop ((currentRound - 1) * config.matchesPerRound)).take config.matchesPerRound

/-- `filterRelevantMatches` of the unified utils: keep `SCHEDULED` and `LIVE`
matches, keep `FINISHED` matches within the grace period, drop everything else. -/
def filterRelevantMatches (now : Int) (ms : List Match) : List Match :=
  ms.filter fun m =>
    if m.status = Status.scheduled then true
    else if m.status = Status.live then true
    else if m.status = Status.finished then decide (now - m.kickoffTime < GRACE_PERIOD_MS)
    else false

/-- Claim-side notion of the latest ("closing") kickoff of a group. -/
def maxKickoff : List CachedMatch → Int
  | [] => 0
  | [m] => m.fixture_date
  | m :: ms => max m.fixture_date (maxKickoff ms)

/-- Claim-side selection: index of the first group whose closing kickoff plus
the grace window is still after `now`. -/
def firstGroupIdx (now : Int) : List (List CachedMatch) → Option Nat
  | [] => none
  | g :: gs =>
    if now < maxKickoff g + GRACE_PERIOD_MS then some 0
    else (firstGroupIdx now gs).map (· + 1)

end LeagueUtils

namespace BundesligaRoute

/-- Inline status-and-inclusion logic of the Bundesliga route handler: `none`
means the match is excluded from the response (matches older than the grace
window, and the `timeDiff` exactly `0` branch which the route logs as "invalid
timing" and skips). -/
def routeDisplayStatus (kickoff now : Int) : Option Status :=
  if kickoff > now then some .scheduled
  else if 0 < now - kickoff ∧ now - kickoff ≤ MATCH_DURATION_MS then some .live
  else if MATCH_DURATION_MS < now - kickoff ∧ now - kickoff ≤ GRACE_PERIOD_MS then some .finished
  else none

end BundesligaRoute

/-! Concrete sample records used by the per-claim witnesses and counterexamples. -/

/-- Shape-A record of the spec's end-to-end scenario 1 (`RB Salzburg` vs
`Rapid Wien`, kickoff `2025-08-22T18:30:00Z`, not finished, not started). -/
def c9RawRBS : MatchNormalizer.RawMatchA :=
  { id := "m1"
    homeTeam := some { id := none, name := some "RB Salzburg", score := none }
    awayTeam := some { id := none, name := some "Rapid Wien", score := none }
    utcTime := "2025-08-22T18:30:00Z"
    status := some { finished := false, started := false, cancelled := false }
    round := none, season := none, bestOdds := none }

/-- The scenario's current instant, `2025-08-20T00:00:00Z`. -/
def c9Now : Int := epochMs 2025 8 20 0 0 0

/-- A cancelled normalized match whose kickoff lies 200 minutes in the past
relative to the sample `now` used against the relevance filters. -/
def c3SampleN : MatchNormalizer.NormalizedMatch :=
  { id := "x", league := MatchNormalizer.AUSTRIAN_BUNDESLIGA
    homeTeam := { id := "h", name := "H", shortName := "H", logoUrl := none, score := none }
    awayTeam := { id := "a", name := "A", shortName := "A", logoUrl := none, score := none }
    kickoffTime := 0, status := Status.cancelled
    round := none, season := none, bestOdds := none, pageUrl := none, liveTime := none }

/-- The same cancelled fixture in the unified-utils match shape. -/
def c3SampleU : LeagueUtils.Match :=
  { id := 1, homeTeam := "H", awayTeam := "A", kickoffTime := 0
    status := Status.cancelled, round := 1, leagueId := "L", leagueName := "League" }

/-- A well-formed Shape-A record (kickoff `2025-08-22T18:30:00Z`). -/
def c7Good1 : MatchNormalizer.RawMatchA :=
  { id := "g1"
    homeTeam := some { id := none, name := some "Sturm Graz", score := none }
    awayTeam := some { id := none, name := some "Austria Wien", score := none }
    utcTime := "2025-08-22T18:30:00Z"
    status := some { finished := false, started := false, cancelled := false }
    round := none, season := none, bestOdds := none }

/-- A second well-formed Shape-A record (kickoff `2025-08-23T15:00:00Z`). -/
def c7Good2 : MatchNormalizer.RawMatchA :=
  { id := "g2"
    homeTeam := some { id := none, name := some "LASK", score := none }
    awayTeam := some { id := none, name := some "WSG Tirol", score := none }
    utcTime := "2025-08-23T15:00:00Z"
    status := some { finished := false, started := false, cancelled := false }
    round := none, season := none, bestOdds := none }

/-- A Shape-A record whose kickoff timestamp does not parse. -/
def c7Bad : MatchNormalizer.RawMatchA :=
  { id := "bad"
    homeTeam := some { id := none, name := some "Ried", score := none }
    awayTeam := some { id := none, name := some "Hartberg", score := none }
    utcTime := "not-a-date"
    status := some { finished := false, started := false, cancelled := false }
    round := none, season := none, bestOdds := none }

/-- Current instant for the batch samples, `2025-08-20T00:00:00Z`. -/
def c7Now : Int := epochMs 2025 8 20 0 0 0

/-- A future already-formatted match fed to the dispatcher with an unknown tag. -/
def c8Formatted : MatchNormalizer.NormalizedMatch :=
  { id := "f1", league := MatchNormalizer.PREMIER_LEAGUE
    homeTeam := { id := "arsenal", name := "Arsenal", shortName := "A", logoUrl := none,
                  score := none }
    awayTeam := { id := "chelsea", name := "Chelsea", shortName := "C", logoUrl := none,
                  score := none }
    kickoffTime := 1000000000000, status := Status.scheduled
    round := none, season := none, bestOdds := none, pageUrl := none, liveTime := none }

/-- A Pinnacle record with no upstream money-line odds, so every odd falls back
to the `Math.random()`-based default. -/
def c10Raw : MatchNormalizer.RawPinnacle :=
  { event_id := 7, home := some "Alpha FC", away := some "Beta SC"
    starts := "2025-08-22T18:30:00Z"
    mlHome := none, mlDraw := none, mlAway := none }

/-- Current instant for the Pinnacle samples, `2025-08-20T00:00:00Z`. -/
def c10Now : Int := epochMs 2025 8 20 0 0 0

/-- Shape-A half of the convergence counterexample: no `season` field. -/
def c1RawA : MatchNormalizer.RawMatchA :=
  { id := "fx1"
    homeTeam := some { id := some "t-alpha", name := some "Alpha FC", score := none }
    awayTeam := some { id := some "t-beta", name := some "Beta SC", score := none }
    utcTime := "2025-08-22T18:30:00Z"
    status := some { finished := false, started := false, cancelled := false }
    round := some "5. Runde", season := none, bestOdds := none }

/-- Shape-B half of the convergence counterexample: the same fixture (same
teams, kickoff and flags), also with no `season` field. -/
def c1RawB : MatchNormalizer.RawMatchB :=
  { id := "fx1"
    home := some { id := some "t-alpha", name := some "Alpha FC", score := none }
    away := some { id := some "t-beta", name := some "Beta SC", score := none }
    status := some { utcTime := "2025-08-22T18:30:00Z", finished := false, started := false,
                     cancelled := false, ongoing := false, liveTime := none }
    round := some "5. Runde", season := none, pageUrl := none }

/-- Current instant for the convergence samples, `2025-08-20T00:00:00Z`. -/
def c1Now : Int := epochMs 2025 8 20 0 0 0

/-- Shape-A half of the convergence witness: carries a present season. -/
def c1WitA : MatchNormalizer.RawMatchA :=
  { id := "fx2"
    homeTeam := some { id := none, name := some "Gamma United", score := none }
    awayTeam := some { id := none, name := some "Delta City", score := none }
    utcTime := "2025-08-23T15:00:00Z"
    status := some { finished := false, started := true, cancelled := false }
    round := none, season := some "2025/26", bestOdds := none }

/-- Shape-B status block of the convergence witness. -/
def c1WitStatus : MatchNormalizer.RawStatusB :=
  { utcTime := "2025-08-23T15:00:00Z", finished := false, started := true,
    cancelled := false, ongoing := false, liveTime := none }

/-- Shape-B half of the convergence witness: the same fixture as `c1WitA`. -/
def c1WitB : MatchNormalizer.RawMatchB :=
  { id := "fx2"
    home := some { id := none, name := some "Gamma United", score := none }
    away := some { id := none, name := some "Delta City", score := none }
    status := some c1WitStatus
    round := none, season := some "2025/26", pageUrl := none }

/-! Characterization lemmas for the three status classifiers. -/

/-- With every upstream flag false, `determineStatus` is `LIVE` exactly on the
elapsed band `[0, 120)` minutes and `SCHEDULED` everywhere else. -/
theorem determineStatus_no_flags (k now : Int) :
    MatchNormalizer.determineStatus k false false false false now =
      if 0 ≤ now - k ∧ now - k < GRACE_PERIOD_MS then Status.live else Status.scheduled := by
  simp [MatchNormalizer.determineStatus]

/-- With no cache status, `calculateMatchStatus` is the pure time classifier. -/
theorem calculateMatchStatus_none (k now : Int) :
    LeagueUtils.calculateMatchStatus k none now =
      if now - k < 0 then Status.scheduled
      else LeagueUtils.timeBasedStatus (now - k) := rfl

/-- The route's inline classifier as a single elapsed-time case split. -/
theorem routeDisplayStatus_eq (k now : Int) :
    BundesligaRoute.routeDisplayStatus k now =
      if now - k < 0 then some Status.scheduled
      else if 0 < now - k ∧ now - k ≤ MATCH_DURATION_MS then some Status.live
      else if MATCH_DURATION_MS < now - k ∧ now - k ≤ GRACE_PERIOD_MS then some Status.finished
      else none := by
  unfold BundesligaRoute.routeDisplayStatus
  split_ifs <;> first | rfl | (exfalso; omega)

/-- C2 (counterexample): with all flags absent, `determineStatus` of the
centralized normalizer classifies an elapsed time of 110 minutes (inside the
claimed `[105, 120)` FINISHED band) as `LIVE`, and an elapsed time of 130
minutes (inside the claimed `>= 120` stale FINISHED band) as `SCHEDULED`, so
the claim's "returns FINISHED when elapsed >= 105 minutes" is false for it. -/
theorem c2_status_counterexample :
    MatchNormalizer.determineStatus 0 false false false false (110 * 60000) = Status.live ∧
    MatchNormalizer.determineStatus 0 false false false false (130 * 60000) = Status.scheduled ∧
    Status.live ≠ Status.finished ∧ Status.scheduled ≠ Status.finished := by
  decide

/-- C2 (amended): with no upstream flags, `calculateMatchStatus` of the unified
utils behaves exactly as claimed (SCHEDULED before kickoff, LIVE on `[0, 105)`
minutes, FINISHED from 105 minutes on); `determineStatus` of the centralized
normalizer instead returns LIVE on the whole `[0, 120)` band and SCHEDULED for
elapsed `>= 120`; and the Bundesliga route's inline classifier returns LIVE on
`(0, 105]`, FINISHED on `(105, 120]`, and excludes the match (no status) at
exactly kickoff and beyond 120 minutes. -/
theorem c2_status_amended (now k : Int) :
    (now - k < 0 →
      LeagueUtils.calculateMatchStatus k none now = Status.scheduled ∧
      MatchNormalizer.determineStatus k false false false false now = Status.scheduled ∧
      BundesligaRoute.routeDisplayStatus k now = some Status.scheduled) ∧
    (now - k = 0 → BundesligaRoute.routeDisplayStatus k now = none) ∧
    (0 ≤ now - k ∧ now - k < MATCH_DURATION_MS →
      LeagueUtils.calculateMatchStatus k none now = Status.live ∧
      MatchNormalizer.determineStatus k false false false false now = Status.live) ∧
    (0 < now - k ∧ now - k ≤ MATCH_DURATION_MS →
      BundesligaRoute.routeDisplayStatus k now = some Status.live) ∧
    (MATCH_DURATION_MS ≤ now - k →
      LeagueUtils.calculateMatchStatus k none now = Status.finished) ∧
    (MATCH_DURATION_MS ≤ now - k ∧ now - k < GRACE_PERIOD_MS →
      MatchNormalizer.determineStatus k false false false false now = Status.live) ∧
    (GRACE_PERIOD_MS ≤ now - k →
      MatchNormalizer.determineStatus k false false false false now = Status.scheduled) ∧
    (MATCH_DURATION_MS < now - k ∧ now - k ≤ GRACE_PERIOD_MS →
      BundesligaRoute.routeDisplayStatus k now = some Status.finished) ∧
    (GRACE_PERIOD_MS < now - k → BundesligaRoute.routeDisplayStatus k now = none) := by
  refine ⟨fun h => ⟨?_, ?_, ?_⟩, fun h => ?_, fun h => ⟨?_, ?_⟩, fun h => ?_, fun h => ?_,
    fun h => ?_, fun h => ?_, fun h => ?_, fun h => ?_⟩ <;>
  · simp only [calculateMatchStatus_none, determineStatus_no_flags, routeDisplayStatus_eq,
      LeagueUtils.timeBasedStatus, MATCH_DURATION_MS, GRACE_PERIOD_MS] at h ⊢
    split_ifs <;> first | rfl | (exfalso; omega)

/-- C2 (witness): the amended bands instantiated at concrete elapsed times
(-5 ms before kickoff, 50 minutes, 110 minutes, 130 minutes, exactly kickoff). -/
theorem c2_status_witness :
    LeagueUtils.calculateMatchStatus 0 none (-5) = Status.scheduled ∧
    LeagueUtils.calculateMatchStatus 0 none (50 * 60000) = Status.live ∧
    LeagueUtils.calculateMatchStatus 0 none (110 * 60000) = Status.finished ∧
    MatchNormalizer.determineStatus 0 false false false false (130 * 60000) = Status.scheduled ∧
    BundesligaRoute.routeDisplayStatus 0 0 = none :=
  ⟨((c2_status_amended (-5) 0).1 (by decide)).1,
   ((c2_status_amended (50 * 60000) 0).2.2.1 (by decide)).1,
   (c2_status_amended (110 * 60000) 0).2.2.2.2.1 (by decide),
   (c2_status_amended (130 * 60000) 0).2.2.2.2.2.2.1 (by decide),
   (c2_status_amended 0 0).2.1 (by decide)⟩

/-- C3 (counterexample): a CANCELLED match 200 minutes after kickoff is dropped
by both relevance filters (the centralized normalizer's and the unified
utils'), contradicting the claim that CANCELLED matches are always kept. -/
theorem c3_filter_counterexample :
    c3SampleN.status = Status.cancelled ∧
    MatchNormalizer.filterRelevantMatches (200 * 60000) [c3SampleN] = [] ∧
    c3SampleU.status = Status.cancelled ∧
    LeagueUtils.filterRelevantMatches (200 * 60000) [c3SampleU] = [] := by
  decide

/-- C3 (amended): the centralized normalizer's filter keeps a match iff fewer
than 120 minutes have elapsed since kickoff, regardless of status (so LIVE or
CANCELLED matches past the window are dropped and FINISHED is not treated
specially); the unified utils' filter keeps a match iff its status is SCHEDULED
or LIVE, or FINISHED within the 120-minute grace window — CANCELLED matches
are always dropped by it. -/
theorem c3_filter_amended (now : Int) (m : MatchNormalizer.NormalizedMatch)
    (ms : List MatchNormalizer.NormalizedMatch) (u : LeagueUtils.Match)
    (us : List LeagueUtils.Match) :
    (m ∈ MatchNormalizer.filterRelevantMatches now ms ↔
      m ∈ ms ∧ now - m.kickoffTime < GRACE_PERIOD_MS) ∧
    (u ∈ LeagueUtils.filterRelevantMatches now us ↔
      u ∈ us ∧ (u.status = Status.scheduled ∨ u.status = Status.live ∨
        (u.status = Status.finished ∧ now - u.kickoffTime < GRACE_PERIOD_MS))) := by
  constructor
  · simp [MatchNormalizer.filterRelevantMatches, List.mem_filter]
  · simp only [LeagueUtils.filterRelevantMatches, List.mem_filter]
    cases hs : u.status <;> simp [hs]

/-- C6 (counterexample): the space-separated timestamp `2025-08-22 18:30:00`
lacks both the UTC marker `Z` and a `+` offset, yet `parseUTCTime`'s string
branch leaves it unchanged (it is not suffixed with `Z`), because the suffixing
condition also requires a `T`; the claim's universal suffixing rule is false. -/
theorem c6_suffix_counterexample :
    MatchNormalizer.strIncludesChar "2025-08-22 18:30:00" 'Z' = false ∧
    MatchNormalizer.strIncludesChar "2025-08-22 18:30:00" '+' = false ∧
    MatchNormalizer.ensureUTCSuffix "2025-08-22 18:30:00" = "2025-08-22 18:30:00" ∧
    ("2025-08-22 18:30:00" : String) ≠ "2025-08-22 18:30:00" ++ "Z" := by
  decide

/-- C6 (amended): a timestamp is suffixed with the UTC marker only when it
contains the ISO separator `T` in addition to lacking `Z` and `+`; such strings
are then parsed with the marker appended, while a `T`-less timestamp is passed
to the date parser unchanged (and is thus open to local-time interpretation by
the host). -/
theorem c6_suffix_amended (s : String) :
    (MatchNormalizer.strIncludesChar s 'T' = true →
      MatchNormalizer.strIncludesChar s 'Z' = false →
      MatchNormalizer.strIncludesChar s '+' = false →
      MatchNormalizer.ensureUTCSuffix s = s ++ "Z" ∧
      MatchNormalizer.parseUTCTime s = jsDateParse (s ++ "Z")) ∧
    (MatchNormalizer.strIncludesChar s 'T' = false →
      MatchNormalizer.ensureUTCSuffix s = s ∧
      MatchNormalizer.parseUTCTime s = jsDateParse s) := by
  constructor
  · intro hT hZ hP
    have h : MatchNormalizer.ensureUTCSuffix s = s ++ "Z" := by
      simp [MatchNormalizer.ensureUTCSuffix, hT, hZ, hP]
    exact ⟨h, by simp only [MatchNormalizer.parseUTCTime]; rw [h]⟩
  · intro hT
    have h : MatchNormalizer.ensureUTCSuffix s = s := by
      simp [MatchNormalizer.ensureUTCSuffix, hT]
    exact ⟨h, by simp only [MatchNormalizer.parseUTCTime]; rw [h]⟩

/-- C6 (witness): the amended rule instantiated at a naive ISO timestamp (which
is suffixed) and a space-separated timestamp (which is passed through). -/
theorem c6_suffix_witness :
    MatchNormalizer.ensureUTCSuffix "2025-08-22T18:30:00" = "2025-08-22T18:30:00" ++ "Z" ∧
    MatchNormalizer.ensureUTCSuffix "2025-08-22 18:30:00" = "2025-08-22 18:30:00" :=
  ⟨((c6_suffix_amended "2025-08-22T18:30:00").1 (by decide) (by decide) (by decide)).1,
   ((c6_suffix_amended "2025-08-22 18:30:00").2 (by decide)).1⟩

/-- C9 (counterexample): `generateShortName` takes the first character of each
word, so `"RB Salzburg"` yields `"RS"`, not the claimed `"RBS"`; the normalized
scenario record's home short name is therefore not `"RBS"`. -/
theorem c9_shortname_counterexample :
    MatchNormalizer.generateShortName "RB Salzburg" = "RS" ∧
    ("RS" : String) ≠ "RBS" ∧
    Except.map (fun n => n.homeTeam.shortName)
      (MatchNormalizer.normalizeAustrianWeekendMatch c9RawRBS
        MatchNormalizer.AUSTRIAN_BUNDESLIGA c9Now) = Except.ok "RS" := by
  decide

/-- C9 (amended): the spec's scenario-1 record normalizes to status SCHEDULED
with derived home-team id `"rb-salzburg"` and derived short name `"RS"` (the
uppercased initials of the two words of `"RB Salzburg"`, truncated to three
characters — not `"RBS"`). -/
theorem c9_shortname_amended :
    Except.map (fun n => (n.status, n.homeTeam.id, n.homeTeam.shortName))
      (MatchNormalizer.normalizeAustrianWeekendMatch c9RawRBS
        MatchNormalizer.AUSTRIAN_BUNDESLIGA c9Now) =
      Except.ok (Status.scheduled, "rb-salzburg", "RS") := by
  decide

/-- When the callback throws on some element, the whole mapped batch throws
(JavaScript `map` has no per-element recovery). -/
theorem mapExcept_error_of_mem {ε α β : Type} (f : α → Except ε β) (x : α) (e : ε)
    (hx : f x = .error e) (pre post : List α) :
    ∃ e2, MatchNormalizer.mapExcept f (pre ++ x :: post) = .error e2 := by
  induction pre with
  | nil => exact ⟨e, by simp [MatchNormalizer.mapExcept, hx]⟩
  | cons a as ih =>
    cases hfa : f a with
    | error e2 =>
      exact ⟨e2, by simp only [List.cons_append, MatchNormalizer.mapExcept, hfa]⟩
    | ok b =>
      obtain ⟨e2, h2⟩ := ih
      exact ⟨e2, by simp only [List.cons_append, MatchNormalizer.mapExcept, List.append_eq, hfa, h2]⟩

/-- C7 (amended): a Shape-A record whose kickoff timestamp does not parse makes
the whole batch normalization fail: `toISOString` throws on the invalid date
and the exception propagates out of `normalizeMatches`, so the remaining
records of the batch are not processed (there is no skip logic). -/
theorem c7_batch_amended (pre post : List MatchNormalizer.RawInput)
    (bad : MatchNormalizer.RawMatchA) (cfg : Option MatchNormalizer.League)
    (round : Option String) (now : Int) (rngs : Nat → Rat × Rat × Rat)
    (hbad : MatchNormalizer.parseUTCTime bad.utcTime = none) :
    ∃ e, MatchNormalizer.normalizeMatches (pre ++ MatchNormalizer.RawInput.shapeA bad :: post)
        "austrian-weekend" cfg round now rngs = Except.error e := by
  have hfx : (fun r => MatchNormalizer.asShapeA r >>= fun m =>
      MatchNormalizer.normalizeAustrianWeekendMatch m
        (cfg.getD MatchNormalizer.AUSTRIAN_BUNDESLIGA) now)
      (MatchNormalizer.RawInput.shapeA bad) = Except.error MatchNormalizer.NormError.invalidTime := by
    simp [MatchNormalizer.asShapeA, Bind.bind, Except.bind,
      MatchNormalizer.normalizeAustrianWeekendMatch, hbad]
  obtain ⟨e2, h2⟩ := mapExcept_error_of_mem
    (fun r => MatchNormalizer.asShapeA r >>= fun m =>
      MatchNormalizer.normalizeAustrianWeekendMatch m
        (cfg.getD MatchNormalizer.AUSTRIAN_BUNDESLIGA) now)
    (MatchNormalizer.RawInput.shapeA bad) MatchNormalizer.NormError.invalidTime hfx pre post
  refine ⟨e2, ?_⟩
  unfold MatchNormalizer.normalizeMatches
  rw [if_pos rfl, h2]
  rfl

/-- C7 (counterexample): a three-record Shape-A batch containing one record
with an unparseable timestamp makes `normalizeMatches` fail outright instead
of dropping the bad record and returning the two good ones; the two good
records alone normalize to a two-element batch. -/
theorem c7_batch_counterexample :
    MatchNormalizer.normalizeMatches
        [MatchNormalizer.RawInput.shapeA c7Good1, MatchNormalizer.RawInput.shapeA c7Bad,
         MatchNormalizer.RawInput.shapeA c7Good2]
        "austrian-weekend" none none c7Now (fun _ => (0, 0, 0)) =
      Except.error MatchNormalizer.NormError.invalidTime ∧
    Except.map List.length
      (MatchNormalizer.normalizeMatches
        [MatchNormalizer.RawInput.shapeA c7Good1, MatchNormalizer.RawInput.shapeA c7Good2]
        "austrian-weekend" none none c7Now (fun _ => (0, 0, 0))) = Except.ok 2 := by
  decide

/-- C7 (witness): the amended abort behaviour instantiated on a concrete batch
with one good and one bad record. -/
theorem c7_batch_witness :
    ∃ e, MatchNormalizer.normalizeMatches
        [MatchNormalizer.RawInput.shapeA c7Good1, MatchNormalizer.RawInput.shapeA c7Bad]
        "austrian-weekend" none none c7Now (fun _ => (0, 0, 0)) = Except.error e :=
  c7_batch_amended [MatchNormalizer.RawInput.shapeA c7Good1] [] c7Bad none none c7Now
    (fun _ => (0, 0, 0)) (by decide)

/-- C8 (counterexample): calling the dispatcher with the unsupported tag
`"bogus-feed"` (outside the six supported tags) does not signal any error — it
silently falls back to the formatted pass-through and returns a normal result. -/
theorem c8_dispatch_counterexample :
    ("bogus-feed" : String) ≠ "austrian-weekend" ∧
    ("bogus-feed" : String) ≠ "german-bundesliga" ∧
    ("bogus-feed" : String) ≠ "german-2bundesliga" ∧
    ("bogus-feed" : String) ≠ "premier-league" ∧
    ("bogus-feed" : String) ≠ "pinnacle" ∧
    ("bogus-feed" : String) ≠ "formatted" ∧
    MatchNormalizer.normalizeMatches [MatchNormalizer.RawInput.formatted c8Formatted]
        "bogus-feed" none none 0 (fun _ => (0, 0, 0)) = Except.ok [c8Formatted] := by
  decide

/-- C8 (amended): for any tag outside the supported set the dispatcher behaves
exactly like the `formatted` branch (it logs a console warning and applies the
pass-through normalizer); it never signals an unsupported-shape error to the
caller. -/
theorem c8_dispatch_amended (ms : List MatchNormalizer.RawInput) (source : String)
    (cfg : Option MatchNormalizer.League) (round : Option String) (now : Int)
    (rngs : Nat → Rat × Rat × Rat)
    (h1 : source ≠ "austrian-weekend") (h2 : source ≠ "german-bundesliga")
    (h3 : source ≠ "german-2bundesliga") (h4 : source ≠ "premier-league")
    (h5 : source ≠ "pinnacle") (h6 : source ≠ "formatted") :
    MatchNormalizer.normalizeMatches ms source cfg round now rngs =
      MatchNormalizer.normalizeMatches ms "formatted" cfg round now rngs := by
  unfold MatchNormalizer.normalizeMatches
  rw [if_neg h1, if_neg h2, if_neg h3, if_neg h4, if_neg h5, if_neg h6]
  rfl

/-- C8 (witness): the fallback equality instantiated at the tag `"mystery"`. -/
theorem c8_dispatch_witness :
    MatchNormalizer.normalizeMatches [MatchNormalizer.RawInput.formatted c8Formatted]
        "mystery" none none 0 (fun _ => (0, 0, 0)) =
      MatchNormalizer.normalizeMatches [MatchNormalizer.RawInput.formatted c8Formatted]
        "formatted" none none 0 (fun _ => (0, 0, 0)) :=
  c8_dispatch_amended [MatchNormalizer.RawInput.formatted c8Formatted] "mystery" none none 0
    (fun _ => (0, 0, 0)) (by decide) (by decide) (by decide) (by decide) (by decide) (by decide)

/-- C10 (counterexample): two evaluations of the Pinnacle pipeline on identical
arguments and the same `now`, differing only in the internal `Math.random()`
draws (modelled as the explicit `rngs` stream), give different outputs: the
fallback best-odds values depend on the draws when the upstream money line is
absent. -/
theorem c10_determinism_counterexample :
    MatchNormalizer.normalizeMatches [MatchNormalizer.RawInput.pinnacle c10Raw] "pinnacle"
        none none c10Now (fun _ => ((0 : Rat), 0, 0)) ≠
      MatchNormalizer.normalizeMatches [MatchNormalizer.RawInput.pinnacle c10Raw] "pinnacle"
        none none c10Now (fun _ => ((1/2 : Rat), 0, 0)) := by
  intro h
  have h2 := congrArg
    (Except.map fun l => l.map fun n => n.bestOdds.map fun b => b.home.odd) h
  have e1 : Except.map (fun l => l.map fun n => n.bestOdds.map fun b => b.home.odd)
      (MatchNormalizer.normalizeMatches [MatchNormalizer.RawInput.pinnacle c10Raw] "pinnacle"
        none none c10Now (fun _ => ((0 : Rat), 0, 0))) =
      Except.ok [some (37/20 + 0 * (3/2 : Rat))] := rfl
  have e2 : Except.map (fun l => l.map fun n => n.bestOdds.map fun b => b.home.odd)
      (MatchNormalizer.normalizeMatches [MatchNormalizer.RawInput.pinnacle c10Raw] "pinnacle"
        none none c10Now (fun _ => ((1/2 : Rat), 0, 0))) =
      Except.ok [some (37/20 + 1/2 * (3/2 : Rat))] := rfl
  rw [e1, e2] at h2
  simp only [Except.ok.injEq, List.cons.injEq, Option.some.injEq] at h2
  have h3 : (37/20 + 0 * (3/2 : Rat)) = 37/20 + 1/2 * (3/2 : Rat) := h2.1
  norm_num at h3

/-- C10 (amended): the pipeline is deterministic given `(input, now)` for every
shape except Pinnacle — the `rngs` stream is irrelevant there; the Pinnacle
normalizer's random fallback odds are the only nondeterminism, and they are
confined to `bestOdds`: erasing `bestOdds` makes the Pinnacle output
independent of the draws as well. -/
theorem c10_determinism_amended :
    (∀ (ms : List MatchNormalizer.RawInput) (source : String)
      (cfg : Option MatchNormalizer.League) (round : Option String) (now : Int)
      (rngs1 rngs2 : Nat → Rat × Rat × Rat), source ≠ "pinnacle" →
      MatchNormalizer.normalizeMatches ms source cfg round now rngs1 =
        MatchNormalizer.normalizeMatches ms source cfg round now rngs2) ∧
    (∀ (m : MatchNormalizer.RawPinnacle) (cfg : MatchNormalizer.League)
      (round : Option String) (now : Int) (r1 r2 : Rat × Rat × Rat),
      Except.map MatchNormalizer.eraseOdds
          (MatchNormalizer.normalizePinnacleMatch m cfg round now r1) =
        Except.map MatchNormalizer.eraseOdds
          (MatchNormalizer.normalizePinnacleMatch m cfg round now r2)) := by
  constructor
  · intro ms source cfg round now rngs1 rngs2 hsrc
    unfold MatchNormalizer.normalizeMatches
    -- the hypothesis discharges the pinnacle condition, so no branch mentions the draws
    split_ifs <;> rfl
  · intro m cfg round now r1 r2
    unfold MatchNormalizer.normalizePinnacleMatch
    cases hp : MatchNormalizer.parseUTCTime m.starts <;>
      simp [Except.map, MatchNormalizer.eraseOdds]

/-- C10 (witness): the amended determinism instantiated at a concrete formatted
batch and at the concrete Pinnacle record with two different draw triples. -/
theorem c10_determinism_witness :
    MatchNormalizer.normalizeMatches [MatchNormalizer.RawInput.formatted c8Formatted]
        "formatted" none none 0 (fun _ => ((0 : Rat), 0, 0)) =
      MatchNormalizer.normalizeMatches [MatchNormalizer.RawInput.formatted c8Formatted]
        "formatted" none none 0 (fun _ => ((1 : Rat), 1, 1)) ∧
    Except.map MatchNormalizer.eraseOdds
        (MatchNormalizer.normalizePinnacleMatch c10Raw MatchNormalizer.AUSTRIAN_2LIGA none
          c10Now ((0 : Rat), 0, 0)) =
      Except.map MatchNormalizer.eraseOdds
        (MatchNormalizer.normalizePinnacleMatch c10Raw MatchNormalizer.AUSTRIAN_2LIGA none
          c10Now ((1 : Rat), 1, 1)) :=
  ⟨c10_determinism_amended.1 [MatchNormalizer.RawInput.formatted c8Formatted] "formatted"
      none none 0 (fun _ => ((0 : Rat), 0, 0)) (fun _ => ((1 : Rat), 1, 1)) (by decide),
   c10_determinism_amended.2 c10Raw MatchNormalizer.AUSTRIAN_2LIGA none c10Now
      ((0 : Rat), 0, 0) ((1 : Rat), 1, 1)⟩

/-- C1 (counterexample): a Shape-A record and a Shape-B record describing the
same fixture (identical id, team blocks, kickoff string and status flags, and
both without a `season` field) normalize to different values even after erasing
`bestOdds`: Shape B defaults the missing season to `"2024/25"` while Shape A
leaves it absent. -/
theorem c1_convergence_counterexample :
    c1RawA.id = c1RawB.id ∧
    c1RawA.homeTeam = c1RawB.home ∧
    c1RawA.awayTeam = c1RawB.away ∧
    (c1RawB.status.map fun st => (st.utcTime, st.finished, st.started, st.cancelled)) =
      some (c1RawA.utcTime, false, false, false) ∧
    c1RawA.status = some { finished := false, started := false, cancelled := false } ∧
    c1RawA.season = none ∧ c1RawB.season = none ∧
    Except.map (fun n => n.season)
      (MatchNormalizer.normalizeAustrianWeekendMatch c1RawA
        MatchNormalizer.AUSTRIAN_BUNDESLIGA c1Now) = Except.ok none ∧
    Except.map (fun n => n.season)
      (MatchNormalizer.normalizeGermanBundesligaMatch c1RawB
        MatchNormalizer.AUSTRIAN_BUNDESLIGA none c1Now) = Except.ok (some "2024/25") ∧
    Except.map MatchNormalizer.eraseOdds
        (MatchNormalizer.normalizeAustrianWeekendMatch c1RawA
          MatchNormalizer.AUSTRIAN_BUNDESLIGA c1Now) ≠
      Except.map MatchNormalizer.eraseOdds
        (MatchNormalizer.normalizeGermanBundesligaMatch c1RawB
          MatchNormalizer.AUSTRIAN_BUNDESLIGA none c1Now) := by
  decide

/-- C1 (amended): the two normalizers agree on every field except `bestOdds`
provided the records additionally agree on a present non-empty season (Shape B
defaults a missing or empty season to `"2024/25"`), the Shape-B record carries
no `pageUrl` and no `liveTime` (only Shape B copies them into the output), and
its `ongoing` flag is false (Shape A has no such flag to pass). -/
theorem c1_convergence_amended (now : Int) (a : MatchNormalizer.RawMatchA)
    (b : MatchNormalizer.RawMatchB) (cfg : MatchNormalizer.League)
    (st : MatchNormalizer.RawStatusB) (s : String)
    (hb : b.status = some st)
    (hid : a.id = b.id)
    (hhome : a.homeTeam = b.home)
    (haway : a.awayTeam = b.away)
    (htime : a.utcTime = st.utcTime)
    (hf : (a.status.map MatchNormalizer.StatusFlagsA.finished).getD false = st.finished)
    (hstd : (a.status.map MatchNormalizer.StatusFlagsA.started).getD false = st.started)
    (hc : (a.status.map MatchNormalizer.StatusFlagsA.cancelled).getD false = st.cancelled)
    (hong : st.ongoing = false)
    (hround : a.round = b.round)
    (hs1 : a.season = some s) (hs2 : b.season = some s) (hsne : s ≠ "")
    (hpage : b.pageUrl = none) (hlive : st.liveTime = none) :
    Except.map MatchNormalizer.eraseOdds
        (MatchNormalizer.normalizeAustrianWeekendMatch a cfg now) =
      Except.map MatchNormalizer.eraseOdds
        (MatchNormalizer.normalizeGermanBundesligaMatch b cfg none now) := by
  have hB : MatchNormalizer.normalizeGermanBundesligaMatch b cfg none now =
      match MatchNormalizer.parseUTCTime st.utcTime with
      | none => Except.error MatchNormalizer.NormError.invalidTime
      | some k => Except.ok
          { id := b.id, league := cfg, homeTeam := MatchNormalizer.normTeam b.home,
            awayTeam := MatchNormalizer.normTeam b.away, kickoffTime := k,
            status := MatchNormalizer.determineStatus k st.finished st.started st.cancelled
              st.ongoing now,
            round := jsOrField none b.round, season := some (jsOrStr b.season "2024/25"),
            bestOdds := none, pageUrl := b.pageUrl, liveTime := st.liveTime } := by
    unfold MatchNormalizer.normalizeGermanBundesligaMatch
    rw [hb]
  unfold MatchNormalizer.normalizeAustrianWeekendMatch
  rw [hB, htime]
  cases hp : MatchNormalizer.parseUTCTime st.utcTime with
  | none => rfl
  | some k =>
    simp only [Except.map, MatchNormalizer.eraseOdds, jsOrField]
    rw [hid, hhome, haway, hf, hstd, hc, ← hong, hround, hs1, hs2, hpage, hlive]
    simp [jsOrStr, hsne]

/-- C1 (witness): the amended convergence instantiated on a concrete fixture
pair carrying the season `"2025/26"`. -/
theorem c1_convergence_witness :
    Except.map MatchNormalizer.eraseOdds
        (MatchNormalizer.normalizeAustrianWeekendMatch c1WitA
          MatchNormalizer.AUSTRIAN_BUNDESLIGA c1Now) =
      Except.map MatchNormalizer.eraseOdds
        (MatchNormalizer.normalizeGermanBundesligaMatch c1WitB
          MatchNormalizer.AUSTRIAN_BUNDESLIGA none c1Now) :=
  c1_convergence_amended c1Now c1WitA c1WitB MatchNormalizer.AUSTRIAN_BUNDESLIGA
    c1WitStatus "2025/26" (by decide) (by decide) (by decide) (by decide) (by decide)
    (by decide) (by decide) (by decide) (by decide) (by decide) (by decide) (by decide)
    (by decide) (by decide) (by decide)

namespace LeagueUtils

/-- Any fuel at least the list's length gives the partition at exact fuel. -/
theorem chunksListAux_fuel {α : Type} (k : Nat) (hk : k ≠ 0) :
    ∀ (f : Nat) (xs : List α), xs.length ≤ f →
      chunksListAux k f xs = chunksListAux k xs.length xs := by
  intro f
  induction f using Nat.strong_induction_on with
  | _ f ih =>
    intro xs h
    cases f with
    | zero =>
      have hx : xs = [] := List.length_eq_zero.mp (Nat.le_zero.mp h)
      subst hx
      rfl
    | succ f =>
      cases xs with
      | nil => rfl
      | cons y ys =>
        simp only [List.length_cons, chunksListAux]
        congr 1
        rw [ih f (by omega) ((y :: ys).drop k)
          (by simp only [List.length_drop, List.length_cons] at h ⊢; omega)]
        rw [ih ys.length (by simp only [List.length_cons] at h; omega) ((y :: ys).drop k)
          (by simp only [List.length_drop, List.length_cons]; omega)]

/-- Unfolding equation of `chunksList` on the empty list. -/
theorem chunksList_nil {α : Type} (k : Nat) : chunksList k ([] : List α) = [] := by
  unfold chunksList
  split_ifs <;> rfl

/-- Unfolding equation of `chunksList` on a nonempty list with a positive size. -/
theorem chunksList_cons {α : Type} (k : Nat) (hk : k ≠ 0) (y : α) (ys : List α) :
    chunksList k (y :: ys) = (y :: ys).take k :: chunksList k ((y :: ys).drop k) := by
  unfold chunksList
  rw [if_neg hk, if_neg hk]
  simp only [List.length_cons, chunksListAux]
  congr 1
  exact chunksListAux_fuel k hk ys.length ((y :: ys).drop k)
    (by simp only [List.length_drop, List.length_cons]; omega)

/-- Every chunk of a positive-size partition is nonempty. -/
theorem chunks_mem_ne_nil {α : Type} (k : Nat) (hk : k ≠ 0) :
    ∀ (xs g : List α), g ∈ chunksList k xs → g ≠ [] := by
  have H : ∀ (n : Nat) (xs : List α), xs.length ≤ n → ∀ g, g ∈ chunksList k xs → g ≠ [] := by
    intro n
    induction n with
    | zero =>
      intro xs hlen g hg
      have hx : xs = [] := List.length_eq_zero.mp (Nat.le_zero.mp hlen)
      subst hx
      rw [chunksList_nil] at hg
      simp at hg
    | succ n ih =>
      intro xs hlen g hg
      cases xs with
      | nil => rw [chunksList_nil] at hg; simp at hg
      | cons y ys =>
        rw [chunksList_cons k hk] at hg
        rcases List.mem_cons.mp hg with h1 | h2
        · subst h1
          obtain ⟨k2, rfl⟩ := Nat.exists_eq_succ_of_ne_zero hk
          simp
        · refine ih ((y :: ys).drop k) ?_ g h2
          simp only [List.length_drop, List.length_cons] at hlen ⊢
          omega
  intro xs
  exact H xs.length xs (Nat.le_refl _)

/-- Every chunk is a sublist of the original list. -/
theorem chunks_mem_sublist {α : Type} (k : Nat) :
    ∀ (xs g : List α), g ∈ chunksList k xs → g.Sublist xs := by
  have H : ∀ (n : Nat) (xs : List α), xs.length ≤ n → ∀ g, g ∈ chunksList k xs →
      g.Sublist xs := by
    intro n
    induction n with
    | zero =>
      intro xs hlen g hg
      have hx : xs = [] := List.length_eq_zero.mp (Nat.le_zero.mp hlen)
      subst hx
      rw [chunksList_nil] at hg
      simp at hg
    | succ n ih =>
      intro xs hlen g hg
      by_cases hk : k = 0
      · subst hk
        unfold chunksList at hg
        simp at hg
      cases xs with
      | nil => rw [chunksList_nil] at hg; simp at hg
      | cons y ys =>
        rw [chunksList_cons k hk] at hg
        rcases List.mem_cons.mp hg with h1 | h2
        · subst h1
          exact List.take_sublist _ _
        · refine (ih ((y :: ys).drop k) ?_ g h2).trans (List.drop_sublist _ _)
          simp only [List.length_drop, List.length_cons] at hlen ⊢
          omega
  intro xs
  exact H xs.length xs (Nat.le_refl _)

/-- Position of the `i`-th chunk inside the original list. -/
theorem chunks_getD {α : Type} (k : Nat) (hk : k ≠ 0) :
    ∀ (i : Nat) (xs : List α), i < (chunksList k xs).length →
      (chunksList k xs).getD i [] = (xs.drop (i * k)).take k := by
  intro i
  induction i with
  | zero =>
    intro xs hlen
    cases xs with
    | nil => rw [chunksList_nil] at hlen; simp at hlen
    | cons y ys =>
      rw [chunksList_cons k hk]
      simp
  | succ i ih =>
    intro xs hlen
    cases xs with
    | nil => rw [chunksList_nil] at hlen; simp at hlen
    | cons y ys =>
      rw [chunksList_cons k hk] at hlen ⊢
      simp only [List.getD_cons_succ]
      rw [ih ((y :: ys).drop k) (by simpa using hlen)]
      rw [List.drop_drop, Nat.succ_mul, Nat.add_comm]

/-- Every member's kickoff is bounded by the group's latest kickoff. -/
theorem le_maxKickoff : ∀ (g : List CachedMatch) (x : CachedMatch), x ∈ g →
    x.fixture_date ≤ maxKickoff g := by
  intro g
  induction g with
  | nil => intro x hx; simp at hx
  | cons m ms ih =>
    intro x hx
    cases ms with
    | nil =>
      rcases List.mem_singleton.mp hx with rfl
      exact le_refl _
    | cons y t =>
      rcases List.mem_cons.mp hx with rfl | hx2
      · exact le_max_left _ _
      · exact (ih x hx2).trans (le_max_right _ _)

/-- On a kickoff-sorted nonempty group, the positionally last match is the one
with the latest kickoff. -/
theorem lastKickoff_eq_maxKickoff : ∀ (g : List CachedMatch),
    g.Pairwise (fun x y => x.fixture_date ≤ y.fixture_date) → g ≠ [] →
    lastKickoff g = maxKickoff g := by
  intro g
  induction g with
  | nil => intro _ h; exact absurd rfl h
  | cons m ms ih =>
    intro hs _
    cases ms with
    | nil => rfl
    | cons y t =>
      rcases List.pairwise_cons.mp hs with ⟨hm, hs2⟩
      have h1 : lastKickoff (m :: y :: t) = lastKickoff (y :: t) := by
        unfold lastKickoff
        rw [List.getLast?_cons_cons]
      rw [h1, ih hs2 (by simp)]
      have h2 : m.fixture_date ≤ maxKickoff (y :: t) :=
        (hm y (List.mem_cons_self _ _)).trans (le_maxKickoff _ y (List.mem_cons_self _ _))
      exact (max_eq_right h2).symm

/-- A selected index is a position inside the group list. -/
theorem firstGroupIdx_lt (now : Int) : ∀ (gs : List (List CachedMatch)) (j : Nat),
    firstGroupIdx now gs = some j → j < gs.length := by
  intro gs
  induction gs with
  | nil => intro j hj; simp [firstGroupIdx] at hj
  | cons g gs ih =>
    intro j hj
    unfold firstGroupIdx at hj
    split_ifs at hj with hcond
    · cases hj; simp
    · rcases Option.map_eq_some'.mp hj with ⟨j2, hj2, rfl⟩
      have := ih j2 hj2
      simp only [List.length_cons]
      omega

/-- The source loop agrees with the claim-side first-eligible-group selection
whenever every group is nonempty and its positionally last kickoff is its
latest kickoff. -/
theorem findCurrentRound_firstGroupIdx (now : Int) (total : Nat) :
    ∀ (gs : List (List CachedMatch)) (idx : Nat),
      (∀ g ∈ gs, g ≠ []) → (∀ g ∈ gs, lastKickoff g = maxKickoff g) →
      (∀ j, firstGroupIdx now gs = some j →
        findCurrentRound now total gs idx = idx + j + 1) ∧
      (firstGroupIdx now gs = none → findCurrentRound now total gs idx = total) := by
  intro gs
  induction gs with
  | nil =>
    intro idx _ _
    constructor
    · intro j hj; simp [firstGroupIdx] at hj
    · intro _; rfl
  | cons g gs ih =>
    intro idx hne hlm
    have hgne : g ≠ [] := hne g (List.mem_cons_self _ _)
    have hglm : lastKickoff g = maxKickoff g := hlm g (List.mem_cons_self _ _)
    obtain ⟨c, cs, rfl⟩ := List.exists_cons_of_ne_nil hgne
    have hnetail : ∀ g2 ∈ gs, g2 ≠ [] := fun g2 hg2 => hne g2 (List.mem_cons_of_mem _ hg2)
    have hlmtail : ∀ g2 ∈ gs, lastKickoff g2 = maxKickoff g2 :=
      fun g2 hg2 => hlm g2 (List.mem_cons_of_mem _ hg2)
    constructor
    · intro j hj
      unfold firstGroupIdx at hj
      split_ifs at hj with hcond
      · cases hj
        unfold findCurrentRound
        rw [if_neg (by simp), if_pos (by rw [hglm]; omega)]
      · rcases hfg : firstGroupIdx now gs with _ | j2
        · rw [hfg] at hj; simp at hj
        · rw [hfg] at hj
          simp only [Option.map_some'] at hj
          cases hj
          unfold findCurrentRound
          rw [if_neg (by simp), if_neg (by rw [hglm]; omega)]
          rw [(ih (idx + 1) hnetail hlmtail).1 j2 hfg]
          omega
    · intro hnone
      unfold firstGroupIdx at hnone
      split_ifs at hnone with hcond
      have hrec : firstGroupIdx now gs = none := by
        rcases hfg : firstGroupIdx now gs with _ | j2
        · rfl
        · rw [hfg] at hnone; simp at hnone
      unfold findCurrentRound
      rw [if_neg (by simp), if_neg (by rw [hglm]; omega)]
      exact (ih (idx + 1) hnetail hlmtail).2 hrec

end LeagueUtils

/-- Loop results never fall below the starting index when the default equals
the index plus the number of remaining groups. -/
theorem findCurrentRound_lower (now : Int) (total : Nat) :
    ∀ (gs : List (List LeagueUtils.CachedMatch)) (idx : Nat), idx + gs.length = total →
      idx ≤ LeagueUtils.findCurrentRound now total gs idx := by
  intro gs
  induction gs with
  | nil =>
    intro idx h
    unfold LeagueUtils.findCurrentRound
    omega
  | cons g gs ih =>
    intro idx h
    have hlen : (idx + 1) + gs.length = total := by
      simp only [List.length_cons] at h
      omega
    unfold LeagueUtils.findCurrentRound
    split_ifs with h1 h2
    · exact (Nat.le_succ idx).trans (ih (idx + 1) hlen)
    · omega
    · exact (Nat.le_succ idx).trans (ih (idx + 1) hlen)

/-- The loop's result is monotone in `now`: a later instant never selects an
earlier group. -/
theorem findCurrentRound_mono (t1 t2 : Int) (h12 : t1 ≤ t2) (total : Nat) :
    ∀ (gs : List (List LeagueUtils.CachedMatch)) (idx : Nat), idx + gs.length = total →
      LeagueUtils.findCurrentRound t1 total gs idx ≤
        LeagueUtils.findCurrentRound t2 total gs idx := by
  intro gs
  induction gs with
  | nil => intro idx _; exact Nat.le_refl _
  | cons g gs ih =>
    intro idx h
    have hlen : (idx + 1) + gs.length = total := by
      simp only [List.length_cons] at h
      omega
    unfold LeagueUtils.findCurrentRound
    split_ifs with h1 h2 h3 h4
    · exact ih (idx + 1) hlen
    · exact Nat.le_refl _
    · exact findCurrentRound_lower t2 total gs (idx + 1) hlen
    · exfalso; omega
    · exact ih (idx + 1) hlen

/-- C4 (confirmed): on a kickoff-sorted match list with a positive
`matchesPerRound`, the round selector returns exactly `i + 1` where `i` is the
first consecutive group whose latest ("closing") kickoff plus the 120-minute
grace window is still after `now` — and the round slice for that index is that
group; when every group's grace window has elapsed, it returns the last group
(the number of groups). -/
theorem c4_round_selector (ms : List LeagueUtils.CachedMatch)
    (config : LeagueUtils.LeagueConfig) (now : Int)
    (hk : config.matchesPerRound ≠ 0)
    (hs : ms.Pairwise fun x y => x.fixture_date ≤ y.fixture_date) :
    (∀ i, LeagueUtils.firstGroupIdx now
        (LeagueUtils.chunksList config.matchesPerRound ms) = some i →
      LeagueUtils.calculateCurrentRound ms config now = i + 1 ∧
      LeagueUtils.filterCurrentRoundMatches ms (i + 1) config =
        (LeagueUtils.chunksList config.matchesPerRound ms).getD i []) ∧
    (LeagueUtils.firstGroupIdx now
        (LeagueUtils.chunksList config.matchesPerRound ms) = none →
      LeagueUtils.calculateCurrentRound ms config now =
        (LeagueUtils.chunksList config.matchesPerRound ms).length) := by
  have hne : ∀ g ∈ LeagueUtils.chunksList config.matchesPerRound ms, g ≠ [] :=
    fun g hg => LeagueUtils.chunks_mem_ne_nil config.matchesPerRound hk ms g hg
  have hlm : ∀ g ∈ LeagueUtils.chunksList config.matchesPerRound ms,
      LeagueUtils.lastKickoff g = LeagueUtils.maxKickoff g := fun g hg =>
    LeagueUtils.lastKickoff_eq_maxKickoff g
      (hs.sublist (LeagueUtils.chunks_mem_sublist config.matchesPerRound ms g hg)) (hne g hg)
  have H := LeagueUtils.findCurrentRound_firstGroupIdx now
    (LeagueUtils.chunksList config.matchesPerRound ms).length
    (LeagueUtils.chunksList config.matchesPerRound ms) 0 hne hlm
  constructor
  · intro i hi
    constructor
    · unfold LeagueUtils.calculateCurrentRound
      rw [H.1 i hi]
      omega
    · have hlt : i < (LeagueUtils.chunksList config.matchesPerRound ms).length :=
        LeagueUtils.firstGroupIdx_lt now _ i hi
      rw [LeagueUtils.chunks_getD config.matchesPerRound hk i ms hlt]
      unfold LeagueUtils.filterCurrentRoundMatches
      simp
  · intro h
    unfold LeagueUtils.calculateCurrentRound
    exact H.2 h

/-- C4 (witness): a four-match list in two rounds of two; 130 minutes after the
first round's closing kickoff (10 minutes into the data) the selector has moved
to round 2 and the round slice is the second group. -/
theorem c4_round_selector_witness :
    LeagueUtils.calculateCurrentRound
      [⟨1, 0, none, "a", "b"⟩, ⟨2, 600000, none, "c", "d"⟩,
       ⟨3, 60000000, none, "e", "f"⟩, ⟨4, 120000000, none, "g", "h"⟩] ⟨2, 0⟩ 7800000 = 2 ∧
    LeagueUtils.filterCurrentRoundMatches
      [⟨1, 0, none, "a", "b"⟩, ⟨2, 600000, none, "c", "d"⟩,
       ⟨3, 60000000, none, "e", "f"⟩, ⟨4, 120000000, none, "g", "h"⟩] 2 ⟨2, 0⟩ =
      [⟨3, 60000000, none, "e", "f"⟩, ⟨4, 120000000, none, "g", "h"⟩] := by
  have h := (c4_round_selector
    [⟨1, 0, none, "a", "b"⟩, ⟨2, 600000, none, "c", "d"⟩,
     ⟨3, 60000000, none, "e", "f"⟩, ⟨4, 120000000, none, "g", "h"⟩] ⟨2, 0⟩ 7800000
    (by decide) (by decide)).1 1 (by decide)
  refine ⟨h.1, ?_⟩
  rw [h.2]
  decide

/-- C5 (confirmed): for a fixed kickoff-sorted match list and a fixed positive
`matchesPerRound`, the selected round index is monotone in `now` — rounds only
advance forward as time increases. -/
theorem c5_round_monotone (ms : List LeagueUtils.CachedMatch)
    (config : LeagueUtils.LeagueConfig) (t1 t2 : Int)
    (_hk : config.matchesPerRound ≠ 0)
    (_hs : ms.Pairwise fun x y => x.fixture_date ≤ y.fixture_date)
    (h12 : t1 ≤ t2) :
    LeagueUtils.calculateCurrentRound ms config t1 ≤
      LeagueUtils.calculateCurrentRound ms config t2 := by
  unfold LeagueUtils.calculateCurrentRound
  exact findCurrentRound_mono t1 t2 h12 _ _ 0 (Nat.zero_add _)

/-- C5 (witness): round monotonicity instantiated on the two-round sample at
the instants 100 and 130 minutes. -/
theorem c5_round_monotone_witness :
    LeagueUtils.calculateCurrentRound
      [⟨1, 0, none, "a", "b"⟩, ⟨2, 600000, none, "c", "d"⟩,
       ⟨3, 60000000, none, "e", "f"⟩, ⟨4, 120000000, none, "g", "h"⟩] ⟨2, 0⟩ 6000000 ≤
    LeagueUtils.calculateCurrentRound
      [⟨1, 0, none, "a", "b"⟩, ⟨2, 600000, none, "c", "d"⟩,
       ⟨3, 60000000, none, "e", "f"⟩, ⟨4, 120000000, none, "g", "h"⟩] ⟨2, 0⟩ 7800000 :=
  c5_round_monotone
    [⟨1, 0, none, "a", "b"⟩, ⟨2, 600000, none, "c", "d"⟩,
     ⟨3, 60000000, none, "e", "f"⟩, ⟨4, 120000000, none, "g", "h"⟩] ⟨2, 0⟩ 6000000 7800000
    (by decide) (by decide) (by decide)
